import Mathlib

/-
Verification of src/mogptk/sm_lmc.py (class SM_LMC: model construction and
the estimate_params routine) against its specification, via a shallow
embedding. Floating point arithmetic is modelled over the rationals; the two
numeric primitives that do not stay inside the rationals (np.sqrt and np.pi)
are supplied through an explicit numeric environment, so that every
definition stays computable. Python name resolution at module level is
modelled explicitly, because the module body uses the global names np and
_estimate_from_sm without ever binding them: the only binding statements in
the file are the two import lines and the class statement.
-/

/- Numeric helpers, with numpy semantics over the rationals. A mean of an
empty list is 0 rather than NaN; no theorem below evaluates that case. -/

def meanQ (xs : List ℚ) : ℚ := xs.sum / (xs.length : ℚ)

def varQ (xs : List ℚ) : ℚ := meanQ (xs.map (fun x => (x - meanQ xs) ^ 2))

def flat2 (m : List (List ℚ)) : List ℚ := m.foldr (fun row acc => row ++ acc) []

def meanAxis0 (m : List (List ℚ)) : List ℚ :=
  (List.range (m.headD []).length).map (fun j => meanQ (m.map (fun row => row.getD j 0)))

def meanAxis1 (m : List (List ℚ)) : List ℚ := m.map meanQ

def matMap (f : ℚ → ℚ) (m : List (List ℚ)) : List (List ℚ) :=
  m.map (fun row => row.map f)

def matMean (m : List (List ℚ)) : ℚ := meanQ (flat2 m)

/-- Slice a 3-dimensional array indexed (channel, input dimension, component)
at a fixed component index q, as in the numpy expression a[:, :, q]. -/
def sliceComp (a : List (List (List ℚ))) (q : Nat) : List (List ℚ) :=
  a.map (fun perChannel => perChannel.map (fun perDim => perDim.getD q 0))

/-- Reshape a vector into r rows, as in the numpy expression v.reshape(r, -1). -/
def reshapeRows (r : Nat) (v : List ℚ) : List (List ℚ) :=
  (List.range r).map (fun i => (v.drop (i * (v.length / r))).take (v.length / r))

/- Data model of the dataset collaborator.

Modelled from the spec: the DataSet class is not part of this file of the
repository. Per the spec it is an ordered collection of channels, each with
observed output values; it exposes per-channel input dimensionality, output
dimensionality equal to the channel count, a PSD-peak estimation function
get_bnse_estimation returning amplitude/mean/variance arrays indexed by
(channel, input dimension, component), and the independent-fit collaborator
_estimate_from_sm returning per-component weight/mean/scale arrays. Both
estimators are carried as deterministic fields of the dataset (mocked
collaborators with deterministic results, as the spec test plan mandates);
the sub-initialization scheme, optimizer name, iteration budget and plot
flag of _estimate_from_sm only influence the fit itself and are absorbed
into the mocked field. -/

structure Channel where
  inputDims : Nat
  Y : List ℚ
deriving DecidableEq

structure BnseEstimate where
  amplitudes : List (List (List ℚ))
  means : List (List (List ℚ))
  variances : List (List (List ℚ))

structure SMFitParams where
  weight : List (List ℚ)
  mean : List (List ℚ)
  scale : List (List ℚ)

structure DataSet where
  channels : List Channel
  bnse : Nat → BnseEstimate
  smFit : Nat → List SMFitParams

def DataSet.get_input_dims (ds : DataSet) : List Nat :=
  ds.channels.map (fun c => c.inputDims)

def DataSet.get_output_dims (ds : DataSet) : Nat := ds.channels.length

/- Python-level errors that the module can raise. The two explicit raise
statements in sm_lmc.py carry messages; they are reproduced here with the
quote characters around BNSE and SM dropped. -/

inductive PyError where
  | nameError (missing : String)
  | unboundLocal (localName : String)
  | indexError
  | configError (msg : String)
deriving DecidableEq

/- Parameter store: the model parameter vector is written exclusively through
set_param(component index, name, value). It is modelled as a chronological
write log; the current value of a parameter is its last write. -/

inductive Value where
  | mat (entries : List (List ℚ))
  | vec (entries : List ℚ)
deriving DecidableEq

abbrev Store := List (Nat × String × Value)

def set_param (s : Store) (q : Nat) (name : String) (v : Value) : Store :=
  s ++ [(q, name, v)]

def getParam (s : Store) (q : Nat) (name : String) : Option Value :=
  (s.reverse.find? (fun e => e.1 == q && e.2.1 == name)).map (fun e => e.2.2)

def writtenKeys (s : Store) : List (Nat × String) :=
  s.map (fun e => (e.1, e.2.1))

/-- The module-level global namespace of src/mogptk/sm_lmc.py: the import
line from .model binds model, the import line from .kernels binds
SpectralMixtureLMC and Noise, and the class statement binds SM_LMC. No other
global name is ever bound in the module; in particular neither np nor
_estimate_from_sm is. -/
def moduleGlobals : List String := ["model", "SpectralMixtureLMC", "Noise", "SM_LMC"]

/-- Numeric runtime: the two numpy primitives whose exact values leave the
rationals. They are parameters of the embedding; concrete theorems
instantiate them with exact mocks. -/
structure NumEnv where
  sqrt : ℚ → ℚ
  pi : ℚ

/- One loop iteration of the BNSE branch of estimate_params, for component
q. The Python body first evaluates np.empty, so the np name lookup comes
first; then get_input_dims()[0] is evaluated (IndexError on an empty channel
list); then the constant matrix is filled column by column, each column
holding the mean over the input-dimension axis of the amplitude slice of its
channel at component q; the matrix is divided by its global mean and passed
through sqrt elementwise; the mean and scale vectors are channel averages of
the corresponding slices. -/
def bnseStep (env : List String) (ne : NumEnv) (ds : DataSet) (est : BnseEstimate)
    (q : Nat) (s : Store) : Store × Option PyError :=
  if env.contains "np" then
    if ds.channels.isEmpty then (s, some .indexError)
    else
      let D := ds.get_input_dims.getD 0 0
      let M := ds.get_output_dims
      let raw := (List.range D).map (fun _ =>
        (List.range M).map (fun channel =>
          meanQ ((est.amplitudes.getD channel []).map (fun perDim => perDim.getD q 0))))
      let constant := matMap ne.sqrt (matMap (fun x => x / matMean raw) raw)
      let mean := meanAxis0 (sliceComp est.means q)
      let variance := meanAxis0 (sliceComp est.variances q)
      let s1 := set_param s q "constant" (.mat constant)
      let s2 := set_param s1 q "mean" (.vec (mean.map (fun x => x * 2 * ne.pi)))
      let s3 := set_param s2 q "scale" (.vec (variance.map (fun x => x * 2)))
      (s3, none)
  else (s, some (.nameError "np"))

/-- One loop iteration of the SM branch of estimate_params, for component q:
constant is the axis-0 mean of the fitted weight array reshaped to Rq rows,
mean is the axis-1 mean of the fitted mean array, variance is the axis-1
mean of the fitted scale array times 2. -/
def smStep (Rq : Nat) (params : List SMFitParams) (q : Nat) (s : Store) :
    Store × Option PyError :=
  let p := params.getD q ⟨[], [], []⟩
  let s1 := set_param s q "constant" (.mat (reshapeRows Rq (meanAxis0 p.weight)))
  let s2 := set_param s1 q "mean" (.vec (meanAxis1 p.mean))
  let s3 := set_param s2 q "variance" (.vec ((meanAxis1 p.scale).map (fun x => x * 2)))
  (s3, none)

/-- The noise section at the end of estimate_params: np.empty again requires
the np name; then each entry i of the noise vector is the population
variance of the observed outputs of channel i divided by 30, written at
component index Q under the name noise. -/
def noiseStep (env : List String) (ds : DataSet) (Q : Nat) (s : Store) :
    Store × Option PyError :=
  if env.contains "np" then
    let noise := ds.channels.map (fun ch => varQ ch.Y / 30)
    (set_param s Q "noise" (.vec noise), none)
  else (s, some (.nameError "np"))

/-- Sequential statement execution with Python exception propagation: a step
that raises stops the sequence, keeping the writes made so far. -/
def runSeq (steps : List (Store → Store × Option PyError)) (s : Store) :
    Store × Option PyError :=
  match steps with
  | [] => (s, none)
  | f :: fs =>
    match f s with
    | (s1, none) => runSeq fs s1
    | (s1, some e) => (s1, some e)

/-- SM_LMC.estimate_params from src/mogptk/sm_lmc.py. The BNSE branch first
calls get_bnse_estimation, then runs the component loop followed by the
noise section; the SM branch first resolves the global name
_estimate_from_sm (never bound in the module), then runs its loop and the
noise section; any other method raises the configuration error of the else
branch. The global namespace env and the numeric runtime ne are explicit
parameters. -/
def estimate_params (env : List String) (ne : NumEnv) (ds : DataSet)
    (Q Rq : Nat) (method : String) (s : Store) : Store × Option PyError :=
  if method = "BNSE" then
    let est := ds.bnse Q
    runSeq ((List.range Q).map (fun q => bnseStep env ne ds est q) ++
      [noiseStep env ds Q]) s
  else if method = "SM" then
    if env.contains "_estimate_from_sm" then
      let params := ds.smFit Q
      runSeq ((List.range Q).map (fun q => smStep Rq params q) ++
        [noiseStep env ds Q]) s
    else (s, some (.nameError "_estimate_from_sm"))
  else
    (s, some (.configError "possible modes are either BNSE or SM"))

/- Model construction. -/

inductive KernelBlock where
  | spectralMixtureLMC (inputDims outputDims Rq : Nat)
  | noiseBlock (inputDims outputDims : Nat)
deriving DecidableEq

/-- Modelled from the spec: the kernel classes live in the kernels module,
which is not part of this file of the repository. Per the spec each
spectral-mixture-LMC block owns parameter slots constant, mean and scale of
shape input_dims by output_dims, and the noise block owns a noise slot of
length output_dims. -/
def KernelBlock.paramShapes : KernelBlock → List (String × List Nat)
  | .spectralMixtureLMC d m _ => [("constant", [d, m]), ("mean", [d, m]), ("scale", [d, m])]
  | .noiseBlock _ m => [("noise", [m])]

/-- Observable effects of SM_LMC construction, in order: base model init,
entry of the graph and session contexts, each kernel block construction, and
the final _build call on the composed kernel. -/
inductive InitEffect where
  | baseModelInit
  | graphEnter
  | sessionEnter
  | blockBuilt (k : KernelBlock)
  | buildCalled (kernelSet : List KernelBlock)
deriving DecidableEq

structure SMLMCModel where
  Q : Nat
  Rq : Nat
  kernel : List KernelBlock
deriving DecidableEq

/-- SM_LMC.init from src/mogptk/sm_lmc.py. The Rq check is the first
statement, so any Rq other than 1 raises before the base model init, before
the graph and session contexts and before any block is built (empty effect
list). Otherwise the loop over q in range(Q) builds one spectral block per
component, each over the input dimensionality of the first channel and the
output dimensionality of the dataset, summed additively in order (the kernel
field lists the summands in order); then the noise block is appended via
kernel_set += Noise(...). For Q = 0 the loop body never runs, kernel_set is
never assigned, and the load of the local kernel_set in the append statement
raises before the Noise block is even constructed. For Q larger than 0 with
an empty channel list, get_input_dims()[0] inside the first block
construction raises IndexError. -/
def SM_LMC_init (ds : DataSet) (Q Rq : Nat) :
    Except PyError SMLMCModel × List InitEffect :=
  if Rq ≠ 1 then (.error (.configError "Rq != 1 is not (yet) supported"), [])
  else
    let pre : List InitEffect := [.baseModelInit, .graphEnter, .sessionEnter]
    match Q with
    | 0 => (.error (.unboundLocal "kernel_set"), pre)
    | n + 1 =>
      if ds.channels.isEmpty then (.error .indexError, pre)
      else
        let D := ds.get_input_dims.getD 0 0
        let M := ds.get_output_dims
        let blocks := (List.range (n + 1)).map (fun _ => KernelBlock.spectralMixtureLMC D M Rq)
        let nb := KernelBlock.noiseBlock D M
        let kernelSet := blocks ++ [nb]
        (.ok ⟨n + 1, Rq, kernelSet⟩,
          pre ++ blocks.map .blockBuilt ++ [.blockBuilt nb, .buildCalled kernelSet])

/- Concrete fixtures used by the witnesses and by the concrete evaluations.
The mocked square root is exact at every point where it is applied below. -/

def mockSqrt : ℚ → ℚ := fun x =>
  if x = 49/25 then 7/5 else if x = 1/25 then 1/5 else if x = 1 then 1 else 0

def testNE : NumEnv := ⟨mockSqrt, 22/7⟩

def chan0 : Channel := ⟨1, [0, 2]⟩

def chan1 : Channel := ⟨1, [1, 5]⟩

def testBnse : Nat → BnseEstimate := fun _ =>
  ⟨[[[49]], [[1]]], [[[3]], [[5]]], [[[2]], [[4]]]⟩

def testSmFit : Nat → List SMFitParams := fun _ =>
  [⟨[[2, 4], [6, 8]], [[1, 3], [5, 7]], [[1, 2], [3, 5]]⟩]

def testDS : DataSet := ⟨[chan0, chan1], testBnse, testSmFit⟩

def testBnse2 : Nat → BnseEstimate := fun _ =>
  ⟨[[[5, 7]], [[5, 7]]], [[[1, 2]], [[3, 4]]], [[[1, 1]], [[3, 5]]]⟩

def testDS2 : DataSet := ⟨[chan0, chan1], testBnse2, testSmFit⟩

/-- The module global namespace with the two missing bindings restored, as
the documentation of estimate_params assumes them to be. -/
def patchedGlobals : List String := "np" :: "_estimate_from_sm" :: moduleGlobals

/- Helper lemmas. -/

theorem bnseStep_np_missing (ne : NumEnv) (ds : DataSet) (est : BnseEstimate)
    (q : Nat) (s : Store) :
    bnseStep moduleGlobals ne ds est q s = (s, some (.nameError "np")) := rfl

theorem noiseStep_np_missing (ds : DataSet) (Q : Nat) (s : Store) :
    noiseStep moduleGlobals ds Q s = (s, some (.nameError "np")) := rfl

theorem list_map_const {α β : Type} (l : List α) (b : β) :
    l.map (fun _ => b) = List.replicate l.length b := by
  induction l with
  | nil => rfl
  | cons a t ih => simp [List.replicate, ih]

def onceBNSE : Store × Option PyError :=
  estimate_params patchedGlobals testNE testDS 1 1 "BNSE" []

def twiceBNSE : Store × Option PyError :=
  estimate_params patchedGlobals testNE testDS 1 1 "BNSE" onceBNSE.1

/-- C4: with the global namespace actually bound by the module (moduleGlobals,
which contains neither np nor _estimate_from_sm), calling estimate_params
with either recognized method stops with a NameError before any parameter
write: the store comes back unchanged, for every dataset, component count,
Rq and numeric runtime, so estimation can never complete as written. On the
BNSE path the first unresolved reference is np, on the SM path it is
_estimate_from_sm. -/
theorem C4_recognized_method_name_error (ne : NumEnv) (ds : DataSet) (Q Rq : Nat)
    (s : Store) (method : String) (h : method = "BNSE" ∨ method = "SM") :
    ("np" ∉ moduleGlobals ∧ "_estimate_from_sm" ∉ moduleGlobals) ∧
    estimate_params moduleGlobals ne ds Q Rq method s =
      (s, some (.nameError (if method = "BNSE" then "np" else "_estimate_from_sm"))) := by
  refine ⟨⟨by decide, by decide⟩, ?_⟩
  rcases h with rfl | rfl
  · cases Q with
    | zero => rfl
    | succ n =>
      simp [estimate_params, List.range_succ_eq_map, runSeq, bnseStep_np_missing]
  · rfl

theorem C4_witness : ("BNSE" = "BNSE" ∨ "BNSE" = "SM") ∧
    (("np" ∉ moduleGlobals ∧ "_estimate_from_sm" ∉ moduleGlobals) ∧
      estimate_params moduleGlobals testNE testDS 1 1 "BNSE" [] =
        ([], some (.nameError (if "BNSE" = "BNSE" then "np" else "_estimate_from_sm")))) :=
  ⟨Or.inl rfl, C4_recognized_method_name_error testNE testDS 1 1 [] "BNSE" (Or.inl rfl)⟩

/-- C5: for every Rq other than 1, SM_LMC construction raises the Rq
configuration error with an empty effect trace: no base model init, no
graph or session context entry, no kernel block built, zero blocks
allocated. -/
theorem C5_rq_config_error (ds : DataSet) (Q Rq : Nat) (h : Rq ≠ 1) :
    SM_LMC_init ds Q Rq =
      (.error (.configError "Rq != 1 is not (yet) supported"), []) := by
  simp [SM_LMC_init, h]

theorem C5_witness : (2 ≠ 1) ∧
    SM_LMC_init testDS 1 2 =
      (.error (.configError "Rq != 1 is not (yet) supported"), []) :=
  ⟨by decide, C5_rq_config_error testDS 1 2 (by decide)⟩

/-- C6: for every method string other than BNSE and SM, estimate_params
raises the configuration error of the else branch and returns the store
unchanged: no kernel block parameter and no noise vector is mutated, for
every global namespace, numeric runtime, dataset, Q, Rq and store. -/
theorem C6_unknown_method (env : List String) (ne : NumEnv) (ds : DataSet)
    (Q Rq : Nat) (s : Store) (method : String)
    (h1 : method ≠ "BNSE") (h2 : method ≠ "SM") :
    estimate_params env ne ds Q Rq method s =
      (s, some (.configError "possible modes are either BNSE or SM")) := by
  simp [estimate_params, h1, h2]

theorem C6_witness : ("foo" ≠ "BNSE") ∧ ("foo" ≠ "SM") ∧
    estimate_params moduleGlobals testNE testDS 1 1 "foo" [] =
      ([], some (.configError "possible modes are either BNSE or SM")) :=
  ⟨by decide, by decide,
    C6_unknown_method moduleGlobals testNE testDS 1 1 [] "foo" (by decide) (by decide)⟩

/-- C7: for every dataset with at least one channel and every Q of at least
1, construction with Rq = 1 succeeds and the composed kernel is exactly Q
spectral-mixture-LMC blocks followed by one noise block appended last, each
built from the input dimensionality of the first channel and the output
dimensionality of the dataset; the spectral blocks carry constant, mean and
scale slots of shape input_dims by output_dims and the noise block carries a
noise slot of length output_dims. -/
theorem C7_construction (ds : DataSet) (Q : Nat) (hQ : 1 ≤ Q)
    (hch : ds.channels ≠ []) :
    (SM_LMC_init ds Q 1).1 = .ok ⟨Q, 1,
        List.replicate Q (KernelBlock.spectralMixtureLMC (ds.get_input_dims.getD 0 0)
          ds.get_output_dims 1) ++
        [KernelBlock.noiseBlock (ds.get_input_dims.getD 0 0) ds.get_output_dims]⟩ ∧
    (KernelBlock.spectralMixtureLMC (ds.get_input_dims.getD 0 0)
        ds.get_output_dims 1).paramShapes =
      [("constant", [ds.get_input_dims.getD 0 0, ds.get_output_dims]),
       ("mean", [ds.get_input_dims.getD 0 0, ds.get_output_dims]),
       ("scale", [ds.get_input_dims.getD 0 0, ds.get_output_dims])] ∧
    (KernelBlock.noiseBlock (ds.get_input_dims.getD 0 0)
        ds.get_output_dims).paramShapes = [("noise", [ds.get_output_dims])] := by
  obtain ⟨n, rfl⟩ : ∃ n, Q = n + 1 := ⟨Q - 1, by omega⟩
  have hie : ds.channels.isEmpty = false := by
    cases hc : ds.channels with
    | nil => exact absurd hc hch
    | cons a t => rfl
  refine ⟨?_, rfl, rfl⟩
  simp [SM_LMC_init, hie, list_map_const]

theorem C7_witness : (1 ≤ 1) ∧ (testDS.channels ≠ []) ∧
    ((SM_LMC_init testDS 1 1).1 = .ok ⟨1, 1,
        List.replicate 1 (KernelBlock.spectralMixtureLMC (testDS.get_input_dims.getD 0 0)
          testDS.get_output_dims 1) ++
        [KernelBlock.noiseBlock (testDS.get_input_dims.getD 0 0) testDS.get_output_dims]⟩ ∧
    (KernelBlock.spectralMixtureLMC (testDS.get_input_dims.getD 0 0)
        testDS.get_output_dims 1).paramShapes =
      [("constant", [testDS.get_input_dims.getD 0 0, testDS.get_output_dims]),
       ("mean", [testDS.get_input_dims.getD 0 0, testDS.get_output_dims]),
       ("scale", [testDS.get_input_dims.getD 0 0, testDS.get_output_dims])] ∧
    (KernelBlock.noiseBlock (testDS.get_input_dims.getD 0 0)
        testDS.get_output_dims).paramShapes = [("noise", [testDS.get_output_dims])]) :=
  ⟨by decide, by decide, C7_construction testDS 1 (by decide) (by decide)⟩

/-- C10: for Q = 0 and Rq = 1, construction of SM_LMC raises no
configuration error: the base model init and the graph and session contexts
are entered, the kernel loop body never runs, and the append of the noise
block fails on the load of the never-assigned local kernel_set, before the
noise block is even constructed, so no kernel block of any kind is
allocated. -/
theorem C10_q_zero_unbound_local (ds : DataSet) :
    SM_LMC_init ds 0 1 =
      (.error (.unboundLocal "kernel_set"),
        [.baseModelInit, .graphEnter, .sessionEnter]) := rfl

theorem C10_witness :
    SM_LMC_init testDS 0 1 =
      (.error (.unboundLocal "kernel_set"),
        [.baseModelInit, .graphEnter, .sessionEnter]) :=
  C10_q_zero_unbound_local testDS

/-- Full evaluation of the BNSE estimation on the concrete dataset with the
missing numpy binding restored: the write log it produces, with every value
computed exactly. -/
theorem bnse_run_patched :
    estimate_params patchedGlobals testNE testDS 1 1 "BNSE" [] =
      ([(0, "constant", Value.mat [[7/5, 1/5]]),
        (0, "mean", Value.vec [176/7]),
        (0, "scale", Value.vec [6]),
        (1, "noise", Value.vec [1/30, 2/15])], none) := by
  norm_num [estimate_params, bnseStep, noiseStep, runSeq, set_param, patchedGlobals,
    moduleGlobals, testDS, testNE, mockSqrt, testBnse, chan0, chan1, meanQ, varQ, flat2,
    meanAxis0, meanAxis1, matMap, matMean, sliceComp, DataSet.get_input_dims,
    DataSet.get_output_dims, List.range_succ]

/-- Full evaluation of the SM estimation on the concrete dataset with the
missing fit-helper binding restored and the fit mocked deterministically:
the write log it produces, with every value computed exactly. -/
theorem sm_run_patched :
    estimate_params patchedGlobals testNE testDS 1 1 "SM" [] =
      ([(0, "constant", Value.mat [[4, 6]]),
        (0, "mean", Value.vec [2, 6]),
        (0, "variance", Value.vec [3, 8]),
        (1, "noise", Value.vec [1/30, 2/15])], none) := by
  norm_num [estimate_params, smStep, noiseStep, runSeq, set_param, patchedGlobals,
    moduleGlobals, testDS, testNE, testSmFit, chan0, chan1, meanQ, varQ, flat2,
    meanAxis0, meanAxis1, reshapeRows, sliceComp, DataSet.get_input_dims,
    DataSet.get_output_dims, List.range_succ]
  intro h
  exact absurd h (by decide)

/-- C1: the claim describes the BNSE values; the code as written cannot set
them. At a concrete two-channel dataset the BNSE call stops with NameError
on np and writes nothing; with the missing numpy binding restored, block 0
receives exactly the claimed values: the constant matrix is the square root
of each per-channel mean amplitude of peak 0 divided by the global matrix
mean (amplitudes 49 and 1, global mean 25, entries 7/5 and 1/5), the mean
parameter is the channel-averaged peak mean (4) times 2 pi (the mocked pi is
22/7, giving 176/7), and the scale parameter is the channel-averaged peak
variance (3) times 2. -/
theorem C1_bnse_block_values :
    estimate_params moduleGlobals testNE testDS 1 1 "BNSE" [] =
      ([], some (.nameError "np")) ∧
    (estimate_params patchedGlobals testNE testDS 1 1 "BNSE" []).2 = none ∧
    getParam (estimate_params patchedGlobals testNE testDS 1 1 "BNSE" []).1 0 "constant" =
      some (.mat [[7/5, 1/5]]) ∧
    getParam (estimate_params patchedGlobals testNE testDS 1 1 "BNSE" []).1 0 "mean" =
      some (.vec [176/7]) ∧
    getParam (estimate_params patchedGlobals testNE testDS 1 1 "BNSE" []).1 0 "scale" =
      some (.vec [6]) := by
  refine ⟨rfl, ?_, ?_, ?_, ?_⟩ <;> (rw [bnse_run_patched]; try rfl)

/-- C2: the claim describes the SM values; the code as written cannot set
them. At a concrete two-channel dataset the SM call stops with NameError on
the never-bound global _estimate_from_sm and writes nothing; with that
binding restored (and the fit mocked deterministically as the spec test plan
mandates), block 0 receives exactly the claimed values: constant is the
axis-0 mean of the fitted weight reshaped to one row, mean is the axis-1
mean of the fitted mean, variance is the axis-1 mean of the fitted scale
times 2. -/
theorem C2_sm_block_values :
    estimate_params moduleGlobals testNE testDS 1 1 "SM" [] =
      ([], some (.nameError "_estimate_from_sm")) ∧
    (estimate_params patchedGlobals testNE testDS 1 1 "SM" []).2 = none ∧
    getParam (estimate_params patchedGlobals testNE testDS 1 1 "SM" []).1 0 "constant" =
      some (.mat [[4, 6]]) ∧
    getParam (estimate_params patchedGlobals testNE testDS 1 1 "SM" []).1 0 "mean" =
      some (.vec [2, 6]) ∧
    getParam (estimate_params patchedGlobals testNE testDS 1 1 "SM" []).1 0 "variance" =
      some (.vec [3, 8]) := by
  refine ⟨rfl, ?_, ?_, ?_, ?_⟩ <;> (rw [sm_run_patched]; try rfl)

/-- C3: the claim describes the noise vector; the code as written never
reaches the noise section. At a concrete two-channel dataset both method
calls stop with a NameError and write nothing, so in particular no noise
vector is ever written; with the missing bindings restored, both methods
write at index Q = 1 the vector of per-channel population variances of the
observed outputs divided by 30: channel 0 has Y = [0, 2] with variance 1,
channel 1 has Y = [1, 5] with variance 4. -/
theorem C3_noise_vector :
    estimate_params moduleGlobals testNE testDS 1 1 "BNSE" [] =
      ([], some (.nameError "np")) ∧
    estimate_params moduleGlobals testNE testDS 1 1 "SM" [] =
      ([], some (.nameError "_estimate_from_sm")) ∧
    getParam (estimate_params patchedGlobals testNE testDS 1 1 "BNSE" []).1 1 "noise" =
      some (.vec [1/30, 2/15]) ∧
    getParam (estimate_params patchedGlobals testNE testDS 1 1 "SM" []).1 1 "noise" =
      some (.vec [1/30, 2/15]) := by
  refine ⟨rfl, rfl, ?_, ?_⟩
  · rw [bnse_run_patched]; rfl
  · rw [sm_run_patched]; rfl

/-- C8: the claim describes two successive estimation calls; as written both
calls stop with NameError before any write, so the store after two calls
equals the store after one call only because neither call overwrites
anything. With the missing binding restored the claim holds as stated: the
second call performs exactly the same writes again (the write log of the
two-call run is the one-call log repeated) and every parameter holds the
same value after two calls as after one, with no accumulation. -/
theorem C8_two_calls :
    (estimate_params moduleGlobals testNE testDS 1 1 "BNSE" []).1 = [] ∧
    (estimate_params moduleGlobals testNE testDS 1 1 "BNSE"
      (estimate_params moduleGlobals testNE testDS 1 1 "BNSE" []).1).1 = [] ∧
    writtenKeys twiceBNSE.1 = writtenKeys onceBNSE.1 ++ writtenKeys onceBNSE.1 ∧
    getParam twiceBNSE.1 0 "constant" = getParam onceBNSE.1 0 "constant" ∧
    getParam twiceBNSE.1 0 "mean" = getParam onceBNSE.1 0 "mean" ∧
    getParam twiceBNSE.1 0 "scale" = getParam onceBNSE.1 0 "scale" ∧
    getParam twiceBNSE.1 1 "noise" = getParam onceBNSE.1 1 "noise" := by
  exact ⟨rfl, rfl, by decide, rfl, rfl, rfl, rfl⟩

/-- C9: the claim describes the write order; as written the estimator fails
at component 0 (NameError on np) with nothing written, so the parameters of
the components before the failing one (none) are exactly the ones left
written, but no ordered writing ever happens. With the missing binding
restored, a Q = 2 run writes strictly in component order, three parameters
for component 0, then three for component 1, then the noise vector last at
index 2. -/
theorem C9_write_order :
    estimate_params moduleGlobals testNE testDS2 2 1 "BNSE" [] =
      ([], some (.nameError "np")) ∧
    writtenKeys (estimate_params patchedGlobals testNE testDS2 2 1 "BNSE" []).1 =
      [(0, "constant"), (0, "mean"), (0, "scale"),
       (1, "constant"), (1, "mean"), (1, "scale"), (2, "noise")] := by
  refine ⟨rfl, ?_⟩
  decide
